import Mathlib

/-
Verification of the render-orchestration core of oxide-renderer.

The Rust sources under src/ are shallowly embedded: pure functions become
Lean functions, stateful methods become explicit state passing, GPU commands
recorded into a render pass become an explicit command trace, and fallible
code returns Option (outer none standing for a Rust panic).  Types from
repository modules that are not present under src/ (crate::model,
crate::pipeline, crate::texture, crate::camera) are modelled from the spec
and carry a doc comment saying so.  f32 arithmetic is modelled over ℚ; every
theorem that evaluates it does so at inputs where each f32 operation is
exact, so the rational value coincides with the float value bit-for-bit.
-/

namespace Oxide

/-! ## Pipeline manager (src/src/pipeline_manager.rs) -/

/-- Modelled from the spec: wgpu::RenderPipeline, the opaque compiled object
produced by crate::pipeline::create_render_pipeline (pipeline.rs is not under
src/).  Per §3 a pipeline is created from shader source text, an ordered list
of bind-group layout descriptors, an ordered list of vertex buffer layouts and
a target color format, and is immutable once created; it is modelled as the
record of those creation inputs.  Layout and format handles are Nat ids. -/
structure RenderPipeline where
  shader_source : String
  bind_group_layouts : List Nat
  vertex_layouts : List Nat
  surface_format : Nat
deriving DecidableEq

/-- Modelled from the spec: crate::pipeline::create_render_pipeline — pipeline
creation is a deterministic function of its descriptors (§3). -/
def create_render_pipeline (shader_source : String) (bind_group_layouts : List Nat)
    (vertex_layouts : List Nat) (surface_format : Nat) : RenderPipeline :=
  { shader_source := shader_source
    bind_group_layouts := bind_group_layouts
    vertex_layouts := vertex_layouts
    surface_format := surface_format }

/-- HashMap<String, usize> lookup, modelled over an association list.  The
manager only ever inserts a key it just failed to find, so keys stay distinct
and an association list searched front-to-back is an exact model of the map. -/
def mapGet : List (String × Nat) → String → Option Nat
  | [], _ => none
  | e :: rest, k => if e.1 = k then some e.2 else mapGet rest k

/-- PipelineManager (src/src/pipeline_manager.rs lines 4-7). -/
structure PipelineManager where
  pipelines : List RenderPipeline
  pipeline_map : List (String × Nat)
deriving DecidableEq

/-- PipelineManager::new (src/src/pipeline_manager.rs lines 10-15). -/
def PipelineManager.new : PipelineManager :=
  { pipelines := [], pipeline_map := [] }

/-- PipelineManager::add_pipeline (src/src/pipeline_manager.rs lines 17-55).
Returns the handle together with the updated manager; the device parameter is
dropped because creation is modelled as a pure function of the descriptors. -/
def PipelineManager.add_pipeline (pm : PipelineManager) (name : String)
    (shader_source : String) (bind_group_layouts : List Nat)
    (vertex_layouts : List Nat) (surface_format : Nat) : Nat × PipelineManager :=
  match mapGet pm.pipeline_map name with
  | some index => (index, pm)
  | none =>
    let render_pipeline :=
      create_render_pipeline shader_source bind_group_layouts vertex_layouts surface_format
    let index := pm.pipelines.length
    (index,
      { pipelines := pm.pipelines ++ [render_pipeline]
        pipeline_map := pm.pipeline_map ++ [(name, index)] })

/-- PipelineManager::get (src/src/pipeline_manager.rs lines 58-60). -/
def PipelineManager.get (pm : PipelineManager) (index : Nat) : Option RenderPipeline :=
  pm.pipelines[index]?

/-- PipelineManager::get_by_name (src/src/pipeline_manager.rs lines 62-64). -/
def PipelineManager.get_by_name (pm : PipelineManager) (name : String) :
    Option RenderPipeline :=
  (mapGet pm.pipeline_map name).bind (fun i => pm.get i)

/-- One add_pipeline request: the name plus the descriptor set. -/
structure AddRequest where
  name : String
  shader_source : String
  bind_group_layouts : List Nat
  vertex_layouts : List Nat
  surface_format : Nat
deriving DecidableEq

/-- Apply one add_pipeline request for its state effect. -/
def applyAdd (pm : PipelineManager) (r : AddRequest) : PipelineManager :=
  (pm.add_pipeline r.name r.shader_source r.bind_group_layouts r.vertex_layouts
    r.surface_format).2

/-- Run a sequence of add_pipeline calls. -/
def runAdds (pm : PipelineManager) : List AddRequest → PipelineManager
  | [] => pm
  | r :: rs => runAdds (applyAdd pm r) rs

/-- The manager invariant: every index stored in the name map is a valid index
into the pipeline vector. -/
def pmWF (pm : PipelineManager) : Prop :=
  ∀ e ∈ pm.pipeline_map, e.2 < pm.pipelines.length

/-! ## Instances (src/src/instance.rs), cgmath arithmetic over ℚ

f32 is modelled by ℚ.  At every input a theorem below evaluates, each f32
operation involved is exact (sums and products of small integers), so the
rational results equal the float results bit-for-bit.  Matrices follow
cgmath's column-major layout: a MatN is its list of column vectors, exactly
the [[f32; N]; N] produced by .into() in Instance::to_raw. -/

structure Vec3 where
  x : ℚ
  y : ℚ
  z : ℚ
deriving DecidableEq

structure Vec4 where
  x : ℚ
  y : ℚ
  z : ℚ
  w : ℚ
deriving DecidableEq

/-- cgmath::Quaternion: scalar part s and vector part (x, y, z). -/
structure Quat where
  s : ℚ
  x : ℚ
  y : ℚ
  z : ℚ
deriving DecidableEq

structure Mat3 where
  c0 : Vec3
  c1 : Vec3
  c2 : Vec3
deriving DecidableEq

structure Mat4 where
  c0 : Vec4
  c1 : Vec4
  c2 : Vec4
  c3 : Vec4
deriving DecidableEq

/-- cgmath Matrix3::from(Quaternion), translated from cgmath's quaternion.rs. -/
def mat3FromQuat (q : Quat) : Mat3 :=
  let x2 := q.x + q.x
  let y2 := q.y + q.y
  let z2 := q.z + q.z
  let xx2 := x2 * q.x
  let xy2 := x2 * q.y
  let xz2 := x2 * q.z
  let yy2 := y2 * q.y
  let yz2 := y2 * q.z
  let zz2 := z2 * q.z
  let sy2 := y2 * q.s
  let sz2 := z2 * q.s
  let sx2 := x2 * q.s
  { c0 := ⟨1 - yy2 - zz2, xy2 + sz2, xz2 - sy2⟩
    c1 := ⟨xy2 - sz2, 1 - xx2 - zz2, yz2 + sx2⟩
    c2 := ⟨xz2 + sy2, yz2 - sx2, 1 - xx2 - yy2⟩ }

/-- cgmath Matrix4::from(Quaternion), translated from cgmath's quaternion.rs. -/
def mat4FromQuat (q : Quat) : Mat4 :=
  let x2 := q.x + q.x
  let y2 := q.y + q.y
  let z2 := q.z + q.z
  let xx2 := x2 * q.x
  let xy2 := x2 * q.y
  let xz2 := x2 * q.z
  let yy2 := y2 * q.y
  let yz2 := y2 * q.z
  let zz2 := z2 * q.z
  let sy2 := y2 * q.s
  let sz2 := z2 * q.s
  let sx2 := x2 * q.s
  { c0 := ⟨1 - yy2 - zz2, xy2 + sz2, xz2 - sy2, 0⟩
    c1 := ⟨xy2 - sz2, 1 - xx2 - zz2, yz2 + sx2, 0⟩
    c2 := ⟨xz2 + sy2, yz2 - sx2, 1 - xx2 - yy2, 0⟩
    c3 := ⟨0, 0, 0, 1⟩ }

/-- cgmath Matrix4::from_translation: identity with the translation in the
fourth column. -/
def mat4FromTranslation (v : Vec3) : Mat4 :=
  { c0 := ⟨1, 0, 0, 0⟩
    c1 := ⟨0, 1, 0, 0⟩
    c2 := ⟨0, 0, 1, 0⟩
    c3 := ⟨v.x, v.y, v.z, 1⟩ }

/-- Matrix-vector product, cgmath column convention. -/
def mat4MulVec (m : Mat4) (v : Vec4) : Vec4 :=
  { x := m.c0.x * v.x + m.c1.x * v.y + m.c2.x * v.z + m.c3.x * v.w
    y := m.c0.y * v.x + m.c1.y * v.y + m.c2.y * v.z + m.c3.y * v.w
    z := m.c0.z * v.x + m.c1.z * v.y + m.c2.z * v.z + m.c3.z * v.w
    w := m.c0.w * v.x + m.c1.w * v.y + m.c2.w * v.z + m.c3.w * v.w }

/-- cgmath Matrix4 * Matrix4. -/
def mat4Mul (a b : Mat4) : Mat4 :=
  { c0 := mat4MulVec a b.c0
    c1 := mat4MulVec a b.c1
    c2 := mat4MulVec a b.c2
    c3 := mat4MulVec a b.c3 }

def mat3Id : Mat3 :=
  { c0 := ⟨1, 0, 0⟩, c1 := ⟨0, 1, 0⟩, c2 := ⟨0, 0, 1⟩ }

def mat4Id : Mat4 :=
  { c0 := ⟨1, 0, 0, 0⟩, c1 := ⟨0, 1, 0, 0⟩, c2 := ⟨0, 0, 1, 0⟩, c3 := ⟨0, 0, 0, 1⟩ }

/-- Instance (src/src/instance.rs lines 6-9). -/
structure Instance where
  position : Vec3
  rotation : Quat
deriving DecidableEq

/-- InstanceRaw (src/src/instance.rs lines 22-27): the fixed-layout GPU record;
equality of these records is byte-for-byte equality of the uploaded bytes. -/
structure InstanceRaw where
  model : Mat4
  normal : Mat3
deriving DecidableEq

/-- Instance::to_raw (src/src/instance.rs lines 11-20). -/
def Instance.to_raw (i : Instance) : InstanceRaw :=
  { model := mat4Mul (mat4FromTranslation i.position) (mat4FromQuat i.rotation)
    normal := mat3FromQuat i.rotation }

/-! ## Model types (crate::model, not under src/) and draw traits
(src/src/draw_traits.rs) -/

/-- Modelled from the spec: crate::model::Mesh (model.rs is not under src/).
Per §3 a mesh is a vertex buffer, an index buffer, an element count and a
material index into the parent model's material list; the field names are the
ones draw_traits.rs reads.  Buffers and bind groups are Nat ids. -/
structure Mesh where
  vertex_buffer : Nat
  index_buffer : Nat
  num_elements : Nat
  material : Nat
deriving DecidableEq

/-- Modelled from the spec: crate::model::Material (model.rs is not under
src/) — a named bundle of texture/sampler resources exposed as one bind
group (§3); draw_traits.rs reads material.bind_group. -/
structure Material where
  name : String
  bind_group : Nat
deriving DecidableEq

/-- Modelled from the spec: crate::model::Model (model.rs is not under src/) —
an ordered collection of meshes plus an ordered collection of materials (§3). -/
structure Model where
  meshes : List Mesh
  materials : List Material
deriving DecidableEq

inductive IndexFormat where
  | uint16
  | uint32
deriving DecidableEq

/-- One GPU command recorded into a render pass.  Bind groups, buffers and
pipelines are carried as ids; setInstanceBuffer is the spec's "bind the
object's instance buffer at the instance vertex-slot" carrying the buffer
contents. -/
inductive RenderCmd where
  | setPipeline (index : Nat)
  | setVertexBuffer (slot : Nat) (buffer : Nat)
  | setInstanceBuffer (slot : Nat) (data : List InstanceRaw)
  | setIndexBuffer (buffer : Nat) (format : IndexFormat)
  | setBindGroup (slot : Nat) (group : Nat)
  | drawIndexed (indexStart : Nat) (indexEnd : Nat) (baseVertex : Int)
      (instStart : Nat) (instEnd : Nat)
deriving DecidableEq

def RenderCmd.isDrawIndexed : RenderCmd → Bool
  | drawIndexed .. => true
  | _ => false

/-- DrawWithMaterial::draw_mesh_instanced for RenderPass
(src/src/draw_traits.rs lines 51-58).  The u32 range instances is the pair
(instStart, instEnd). -/
def drawMeshInstancedWithMaterial (mesh : Mesh) (material : Material)
    (instStart instEnd : Nat) (camera_bind_group light_bind_group : Nat) :
    List RenderCmd :=
  [RenderCmd.setVertexBuffer 0 mesh.vertex_buffer,
   RenderCmd.setIndexBuffer mesh.index_buffer IndexFormat.uint32,
   RenderCmd.setBindGroup 0 material.bind_group,
   RenderCmd.setBindGroup 1 camera_bind_group,
   RenderCmd.setBindGroup 2 light_bind_group,
   RenderCmd.drawIndexed 0 mesh.num_elements 0 instStart instEnd]

/-- DrawWithMaterial::draw_mesh (src/src/draw_traits.rs lines 47-49). -/
def drawMeshWithMaterial (mesh : Mesh) (material : Material)
    (camera_bind_group light_bind_group : Nat) : List RenderCmd :=
  drawMeshInstancedWithMaterial mesh material 0 1 camera_bind_group light_bind_group

/-- The mesh loop of DrawWithMaterial::draw_model_instanced
(src/src/draw_traits.rs lines 65-68).  model.materials[mesh.material] panics
when the index is out of range; the panic is modelled as none. -/
def drawModelLoopWithMaterial (materials : List Material)
    (instStart instEnd camera_bind_group light_bind_group : Nat) :
    List Mesh → Option (List RenderCmd)
  | [] => some []
  | mesh :: rest =>
    match materials[mesh.material]? with
    | none => none
    | some material =>
      (drawModelLoopWithMaterial materials instStart instEnd camera_bind_group
          light_bind_group rest).map
        (fun cmds =>
          drawMeshInstancedWithMaterial mesh material instStart instEnd
            camera_bind_group light_bind_group ++ cmds)

/-- DrawWithMaterial::draw_model_instanced (src/src/draw_traits.rs
lines 64-69). -/
def drawModelInstancedWithMaterial (model : Model)
    (instStart instEnd camera_bind_group light_bind_group : Nat) :
    Option (List RenderCmd) :=
  drawModelLoopWithMaterial model.materials instStart instEnd camera_bind_group
    light_bind_group model.meshes

/-- DrawWithMaterial::draw_model (src/src/draw_traits.rs lines 60-62). -/
def drawModelWithMaterial (model : Model)
    (camera_bind_group light_bind_group : Nat) : Option (List RenderCmd) :=
  drawModelInstancedWithMaterial model 0 1 camera_bind_group light_bind_group

/-- DrawWithoutMaterial::draw_mesh_instanced (src/src/draw_traits.rs
lines 116-128). -/
def drawMeshInstancedWithoutMaterial (mesh : Mesh) (instStart instEnd : Nat)
    (camera_bind_group light_bind_group : Nat) : List RenderCmd :=
  [RenderCmd.setVertexBuffer 0 mesh.vertex_buffer,
   RenderCmd.setIndexBuffer mesh.index_buffer IndexFormat.uint32,
   RenderCmd.setBindGroup 0 camera_bind_group,
   RenderCmd.setBindGroup 1 light_bind_group,
   RenderCmd.drawIndexed 0 mesh.num_elements 0 instStart instEnd]

/-- DrawWithoutMaterial::draw_mesh (src/src/draw_traits.rs lines 107-114). -/
def drawMeshWithoutMaterial (mesh : Mesh)
    (camera_bind_group light_bind_group : Nat) : List RenderCmd :=
  drawMeshInstancedWithoutMaterial mesh 0 1 camera_bind_group light_bind_group

/-- The mesh loop of DrawWithoutMaterial::draw_model_instanced
(src/src/draw_traits.rs lines 146-148). -/
def drawModelLoopWithoutMaterial (instStart instEnd camera_bind_group light_bind_group : Nat) :
    List Mesh → List RenderCmd
  | [] => []
  | mesh :: rest =>
    drawMeshInstancedWithoutMaterial mesh instStart instEnd camera_bind_group
        light_bind_group ++
      drawModelLoopWithoutMaterial instStart instEnd camera_bind_group
        light_bind_group rest

/-- DrawWithoutMaterial::draw_model_instanced (src/src/draw_traits.rs
lines 139-149). -/
def drawModelInstancedWithoutMaterial (model : Model)
    (instStart instEnd camera_bind_group light_bind_group : Nat) : List RenderCmd :=
  drawModelLoopWithoutMaterial instStart instEnd camera_bind_group
    light_bind_group model.meshes

/-- DrawWithoutMaterial::draw_model (src/src/draw_traits.rs lines 130-137). -/
def drawModelWithoutMaterial (model : Model)
    (camera_bind_group light_bind_group : Nat) : List RenderCmd :=
  drawModelInstancedWithoutMaterial model 0 1 camera_bind_group light_bind_group

/-- DrawMethod (src/src/draw_traits.rs lines 4-7). -/
inductive DrawMethod where
  | withMaterial
  | withoutMaterial
deriving DecidableEq

/-! ## Renderable objects (src/src/renderable_object.rs) -/

/-- RenderableObject (src/src/renderable_object.rs lines 5-11).  The GPU
instance buffer is modelled by its contents, the list of raw records it holds;
its length is the buffer's fixed record capacity chosen at creation. -/
structure RenderableObject where
  model : Model
  instances : List Instance
  instance_buffer : List InstanceRaw
  pipeline_name : Option String
  draw_method : DrawMethod
deriving DecidableEq

/-- RenderableObject::new (src/src/renderable_object.rs lines 14-41): derives
the raw records of the given instances and creates the buffer from exactly
those bytes. -/
def RenderableObject.new (model : Model) (instances : List Instance)
    (pipeline_name : Option String) (draw_method : DrawMethod) : RenderableObject :=
  { model := model
    instances := instances
    instance_buffer := instances.map Instance.to_raw
    pipeline_name := pipeline_name
    draw_method := draw_method }

/-- wgpu Queue::write_buffer(buffer, 0, data): overwrite the front of the
fixed-size buffer with data, leaving any bytes past data untouched; writing
more data than the buffer holds is a validation error (none). -/
def writeBuffer (buffer data : List InstanceRaw) : Option (List InstanceRaw) :=
  if data.length ≤ buffer.length then
    some (data ++ buffer.drop data.length)
  else
    none

/-- RenderableObject::update_instances (src/src/renderable_object.rs
lines 72-79): re-derive every raw record from the current instance list and
write them to the buffer at offset 0. -/
def RenderableObject.update_instances (o : RenderableObject) :
    Option RenderableObject :=
  (writeBuffer o.instance_buffer (o.instances.map Instance.to_raw)).map
    (fun b => { o with instance_buffer := b })

/-- RenderableObject::draw (src/src/renderable_object.rs lines 43-70):
dispatch on the draw method over the full instance range. -/
def RenderableObject.draw (o : RenderableObject)
    (camera_bind_group light_bind_group : Nat) : Option (List RenderCmd) :=
  match o.draw_method with
  | DrawMethod.withMaterial =>
    drawModelInstancedWithMaterial o.model 0 o.instances.length
      camera_bind_group light_bind_group
  | DrawMethod.withoutMaterial =>
    some (drawModelInstancedWithoutMaterial o.model 0 o.instances.length
      camera_bind_group light_bind_group)

/-! ## Frame orchestrator (src/src/state.rs) -/

/-- wgpu::SurfaceConfiguration (src/src/state.rs lines 86-95); only width and
height are modelled because they are the only fields the core ever writes
after startup. -/
structure SurfaceConfig where
  width : Nat
  height : Nat
deriving DecidableEq

/-- wgpu::SurfaceError, the error type of Surface::get_current_texture. -/
inductive SurfaceError where
  | timeout
  | outdated
  | lost
  | outOfMemory
deriving DecidableEq

instance {ε α : Type} [DecidableEq ε] [DecidableEq α] : DecidableEq (Except ε α) :=
  fun a b =>
    match a, b with
    | Except.ok x, Except.ok y =>
      if h : x = y then isTrue (by rw [h]) else isFalse (by intro hc; cases hc; exact h rfl)
    | Except.error x, Except.error y =>
      if h : x = y then isTrue (by rw [h]) else isFalse (by intro hc; cases hc; exact h rfl)
    | Except.ok _, Except.error _ => isFalse (by intro hc; cases hc)
    | Except.error _, Except.ok _ => isFalse (by intro hc; cases hc)

/-- What one State::render call did: whether a surface texture was acquired, a
command buffer submitted and the image presented, plus the commands recorded
into the render pass. -/
structure FrameOutput where
  acquired : Bool
  submitted : Bool
  presented : Bool
  commands : List RenderCmd
deriving DecidableEq

/-- State (src/src/state.rs lines 12-38), restricted to the fields render and
resize read or write.  surface_current_texture models what the next
Surface::get_current_texture call yields; surface_configured_with records the
configuration of the last surface.configure call; depth_texture_size the
dimensions the depth texture was created with. -/
structure State where
  config : SurfaceConfig
  is_surface_configured : Bool
  projection_aspect : ℚ
  depth_texture_size : Nat × Nat
  surface_configured_with : Option SurfaceConfig
  surface_current_texture : Except SurfaceError Nat
  obj_model : Model
  instances : List Instance
  instance_buffer : Nat
  camera_bind_group : Nat
  light_bind_group : Nat
  render_pipeline : Nat
  light_render_pipeline : Nat
deriving DecidableEq

/-- Modelled from the spec: camera::Projection::resize (camera.rs is not under
src/) — "resize the projection's aspect ratio" (§4.4), so the projection state
is modelled by its aspect ratio width / height. -/
def projectionResize (width height : Nat) : ℚ :=
  (width : ℚ) / (height : ℚ)

/-- State::resize (src/src/state.rs lines 339-348).  The depth-texture
recreation is texture::Texture::create_depth_texture (texture.rs is not under
src/), modelled from the spec as producing a texture sized to the current
surface configuration (§3 depth-buffer invariant, §4.4). -/
def State.resize (s : State) (width height : Nat) : State :=
  if 0 < width ∧ 0 < height then
    let config : SurfaceConfig := { width := width, height := height }
    { s with
        config := config
        is_surface_configured := true
        projection_aspect := projectionResize config.width config.height
        surface_configured_with := some config
        depth_texture_size := (config.width, config.height) }
  else
    s

/-- Modelled from the spec: crate::model's DrawLight::draw_light_model
(model.rs is not under src/) — the light-indicator model is drawn with the
without-material binding sequence, camera at slot 0 and light at slot 1, as a
single instance (§4.2, §4.4). -/
def drawLightModel (model : Model) (camera_bind_group light_bind_group : Nat) :
    List RenderCmd :=
  drawModelInstancedWithoutMaterial model 0 1 camera_bind_group light_bind_group

/-- Modelled from the spec: crate::model's DrawModel::draw_model_instanced
(model.rs is not under src/) — the textured model draw binds material at
slot 0, camera at slot 1 and light at slot 2 per mesh (§4.2, §6), i.e. the
with-material strategy. -/
def drawModelInstancedTextured (model : Model)
    (instStart instEnd camera_bind_group light_bind_group : Nat) :
    Option (List RenderCmd) :=
  drawModelInstancedWithMaterial model instStart instEnd camera_bind_group
    light_bind_group

/-- State::render (src/src/state.rs lines 385-453).  The outer Option is none
when recording panics (an out-of-range material index); otherwise the Except
carries either the surface-acquisition error or the frame output. -/
def State.render (s : State) : Option (Except SurfaceError FrameOutput) :=
  if s.is_surface_configured = false then
    some (Except.ok ⟨false, false, false, []⟩)
  else
    match s.surface_current_texture with
    | Except.error e => some (Except.error e)
    | Except.ok _tex =>
      match drawModelInstancedTextured s.obj_model 0 s.instances.length
          s.camera_bind_group s.light_bind_group with
      | none => none
      | some objCmds =>
        some (Except.ok ⟨true, true, true,
          RenderCmd.setPipeline s.light_render_pipeline ::
            drawLightModel s.obj_model s.camera_bind_group s.light_bind_group ++
          RenderCmd.setPipeline s.render_pipeline ::
          RenderCmd.setVertexBuffer 1 s.instance_buffer ::
          objCmds⟩)

/-- Modelled from the spec: the Record+Submit per-object loop of §4.4 — for
every renderable object in insertion order, resolve its pipeline name
(default "main" when unset) through the pipeline manager; on a miss skip the
object silently; otherwise bind the resolved pipeline, bind the object's
instance buffer at the instance vertex-slot (slot 1) and invoke the object's
draw.  This loop appears nowhere in src/; it is the behaviour claim C2
attributes to State::render. -/
def recordObjects (pm : PipelineManager) (camera_bind_group light_bind_group : Nat) :
    List RenderableObject → Option (List RenderCmd)
  | [] => some []
  | o :: rest =>
    match mapGet pm.pipeline_map (o.pipeline_name.getD "main") with
    | none => recordObjects pm camera_bind_group light_bind_group rest
    | some i =>
      match o.draw camera_bind_group light_bind_group with
      | none => none
      | some cmds =>
        (recordObjects pm camera_bind_group light_bind_group rest).map
          (fun cmdsRest =>
            RenderCmd.setPipeline i ::
            RenderCmd.setInstanceBuffer 1 o.instance_buffer ::
            cmds ++ cmdsRest)

/-! ## Concrete scene values used by witnesses and counterexamples -/

def demoInstance : Instance := ⟨⟨0, 0, 0⟩, ⟨1, 0, 0, 0⟩⟩

def instB : Instance := ⟨⟨4, 5, 6⟩, ⟨1, 0, 0, 0⟩⟩

def demoMesh : Mesh := ⟨100, 101, 36, 0⟩

def demoMaterial : Material := ⟨"demo", 200⟩

def demoModel : Model := { meshes := [demoMesh], materials := [demoMaterial] }

def badMesh : Mesh := ⟨100, 101, 36, 5⟩

def badModel : Model := { meshes := [badMesh], materials := [demoMaterial] }

def demoObject : RenderableObject :=
  RenderableObject.new demoModel [demoInstance] none DrawMethod.withMaterial

def demoState : State :=
  { config := ⟨800, 600⟩
    is_surface_configured := true
    projection_aspect := projectionResize 800 600
    depth_texture_size := (800, 600)
    surface_configured_with := some ⟨800, 600⟩
    surface_current_texture := Except.ok 7
    obj_model := demoModel
    instances := [demoInstance]
    instance_buffer := 300
    camera_bind_group := 3
    light_bind_group := 4
    render_pipeline := 1
    light_render_pipeline := 2 }

def unconfiguredState : State :=
  { demoState with is_surface_configured := false }

/-- The commands the textured model draw records for demoModel. -/
def demoObjCmds : List RenderCmd :=
  drawMeshInstancedWithMaterial demoMesh demoMaterial 0 1 3 4

def c4Object : RenderableObject :=
  RenderableObject.new demoModel [demoInstance, instB] none DrawMethod.withMaterial

/-- c4Object after its public instances field was shrunk to a single element
(the field is pub in Rust, so scene code can do exactly this before calling
update_instances). -/
def c4Mutated : RenderableObject :=
  { c4Object with instances := [demoInstance] }

def mainReq : AddRequest := ⟨"main", "shader-main", [0, 1, 2], [10, 11], 1⟩

def lightReq : AddRequest := ⟨"light", "shader-light", [1, 2], [10], 1⟩

def demoRequests : List AddRequest := [mainReq, lightReq]

/-! ## Association-list map lemmas -/

theorem mapGet_append_left {m : List (String × Nat)} (l : List (String × Nat))
    {k : String} {i : Nat} (h : mapGet m k = some i) : mapGet (m ++ l) k = some i := by
  induction m with
  | nil => simp [mapGet] at h
  | cons e rest ih =>
    by_cases hk : e.1 = k
    · simpa [mapGet, hk] using h
    · simp [mapGet, hk] at h ⊢
      exact ih h

theorem mapGet_append_self {m : List (String × Nat)} {k : String} (v : Nat)
    (h : mapGet m k = none) : mapGet (m ++ [(k, v)]) k = some v := by
  induction m with
  | nil => simp [mapGet]
  | cons e rest ih =>
    by_cases hk : e.1 = k
    · simp [mapGet, hk] at h
    · simp [mapGet, hk] at h ⊢
      exact ih h

theorem mapGet_append_none {m : List (String × Nat)} {k k' : String} (v : Nat)
    (h : mapGet m k = none) (hne : k' ≠ k) : mapGet (m ++ [(k', v)]) k = none := by
  induction m with
  | nil => simp [mapGet, hne]
  | cons e rest ih =>
    by_cases hk : e.1 = k
    · simp [mapGet, hk] at h
    · simp [mapGet, hk] at h ⊢
      exact ih h

theorem mapGet_mem {m : List (String × Nat)} {k : String} {i : Nat}
    (h : mapGet m k = some i) : (k, i) ∈ m := by
  induction m with
  | nil => simp [mapGet] at h
  | cons e rest ih =>
    rw [mapGet] at h
    by_cases hk : e.1 = k
    · rw [if_pos hk] at h
      cases e with
      | mk a b =>
        injection h with hb
        subst hk
        subst hb
        exact List.mem_cons_self _ _
    · rw [if_neg hk] at h
      exact List.mem_cons_of_mem e (ih h)

theorem getElem_append_some {α : Type} {l : List α} (l2 : List α) {i : Nat} {p : α}
    (h : l[i]? = some p) : (l ++ l2)[i]? = some p := by
  induction l generalizing i with
  | nil => simp at h
  | cons a t ih =>
    cases i with
    | zero => simpa using h
    | succ m =>
      rw [List.cons_append]
      simpa using ih (by simpa using h)

theorem getElem_append_length {α : Type} (l : List α) (x : α) :
    (l ++ [x])[l.length]? = some x := by
  induction l with
  | nil => rfl
  | cons a t ih => simp [ih]

/-! ## C1 -/

/-- C1: pipeline registration is idempotent — for any manager state, name N and
descriptor sets A and B, the call add_pipeline N B made right after
add_pipeline N A returns the very handle the first call returned, and leaves
the manager unchanged (no pipeline is created, the cached handle is reused). -/
theorem add_pipeline_idempotent (pm : PipelineManager) (name : String)
    (sA : String) (lA : List Nat) (vA : List Nat) (fA : Nat)
    (sB : String) (lB : List Nat) (vB : List Nat) (fB : Nat) :
    ((pm.add_pipeline name sA lA vA fA).2.add_pipeline name sB lB vB fB).1
        = (pm.add_pipeline name sA lA vA fA).1 ∧
    ((pm.add_pipeline name sA lA vA fA).2.add_pipeline name sB lB vB fB).2
        = (pm.add_pipeline name sA lA vA fA).2 := by
  cases h : mapGet pm.pipeline_map name with
  | some i =>
    constructor <;> simp [PipelineManager.add_pipeline, h]
  | none =>
    have h2 := mapGet_append_self pm.pipelines.length h
    constructor <;> simp [PipelineManager.add_pipeline, h, h2]

/-! ## C3 and C7: draw strategies -/

/-- C3: for every mesh and model and both strategies, the single-instance draw
form performs exactly the operations of the instanced form called with range
[0,1) — the source bodies are pure delegations, with no independent logic. -/
theorem single_instance_reduction :
    (∀ (mesh : Mesh) (material : Material) (cam light : Nat),
      drawMeshWithMaterial mesh material cam light
        = drawMeshInstancedWithMaterial mesh material 0 1 cam light) ∧
    (∀ (model : Model) (cam light : Nat),
      drawModelWithMaterial model cam light
        = drawModelInstancedWithMaterial model 0 1 cam light) ∧
    (∀ (mesh : Mesh) (cam light : Nat),
      drawMeshWithoutMaterial mesh cam light
        = drawMeshInstancedWithoutMaterial mesh 0 1 cam light) ∧
    (∀ (model : Model) (cam light : Nat),
      drawModelWithoutMaterial model cam light
        = drawModelInstancedWithoutMaterial model 0 1 cam light) :=
  ⟨fun _ _ _ _ => rfl, fun _ _ _ => rfl, fun _ _ _ => rfl, fun _ _ _ => rfl⟩

/-- C7: the with-material mesh draw binds the vertex buffer at slot 0, the
index buffer as 32-bit indices, material at bind-group slot 0, camera at 1 and
light at 2, then issues one indexed draw over the mesh's full index range for
the given instance range; the without-material mesh draw performs identical
vertex/index binding but binds camera at 0 and light at 1 with no material
slot. -/
theorem mesh_draw_binding_sequence :
    (∀ (mesh : Mesh) (material : Material) (instStart instEnd cam light : Nat),
      drawMeshInstancedWithMaterial mesh material instStart instEnd cam light =
        [RenderCmd.setVertexBuffer 0 mesh.vertex_buffer,
         RenderCmd.setIndexBuffer mesh.index_buffer IndexFormat.uint32,
         RenderCmd.setBindGroup 0 material.bind_group,
         RenderCmd.setBindGroup 1 cam,
         RenderCmd.setBindGroup 2 light,
         RenderCmd.drawIndexed 0 mesh.num_elements 0 instStart instEnd]) ∧
    (∀ (mesh : Mesh) (instStart instEnd cam light : Nat),
      drawMeshInstancedWithoutMaterial mesh instStart instEnd cam light =
        [RenderCmd.setVertexBuffer 0 mesh.vertex_buffer,
         RenderCmd.setIndexBuffer mesh.index_buffer IndexFormat.uint32,
         RenderCmd.setBindGroup 0 cam,
         RenderCmd.setBindGroup 1 light,
         RenderCmd.drawIndexed 0 mesh.num_elements 0 instStart instEnd]) :=
  ⟨fun _ _ _ _ _ _ => rfl, fun _ _ _ _ _ => rfl⟩

/-! ## C5: raw-record derivation -/

/-- C5: Instance::to_raw is a pure function of the position and rotation —
equal inputs give byte-identical records — and for the identity rotation at
the origin it yields the identity 4x4 model matrix and identity 3x3 normal
matrix. -/
theorem to_raw_pure_identity :
    (∀ a b : Instance, a.position = b.position → a.rotation = b.rotation →
      a.to_raw = b.to_raw) ∧
    Instance.to_raw ⟨⟨0, 0, 0⟩, ⟨1, 0, 0, 0⟩⟩ = ⟨mat4Id, mat3Id⟩ := by
  constructor
  · intro a b h1 h2
    cases a
    cases b
    simp only at h1 h2
    rw [h1, h2]
  · simp only [Instance.to_raw, mat4Mul, mat4MulVec, mat4FromTranslation, mat4FromQuat,
      mat3FromQuat, mat4Id, mat3Id]
    norm_num [InstanceRaw.mk.injEq, Mat4.mk.injEq, Mat3.mk.injEq, Vec4.mk.injEq, Vec3.mk.injEq]

/-- Witness for C5 at concrete inputs. -/
theorem to_raw_pure_identity_witness :
    Instance.to_raw ⟨⟨1, 2, 3⟩, ⟨1, 0, 0, 0⟩⟩
        = Instance.to_raw ⟨⟨1, 2, 3⟩, ⟨1, 0, 0, 0⟩⟩ ∧
    Instance.to_raw ⟨⟨0, 0, 0⟩, ⟨1, 0, 0, 0⟩⟩ = ⟨mat4Id, mat3Id⟩ :=
  ⟨to_raw_pure_identity.1 ⟨⟨1, 2, 3⟩, ⟨1, 0, 0, 0⟩⟩ ⟨⟨1, 2, 3⟩, ⟨1, 0, 0, 0⟩⟩ rfl rfl,
   to_raw_pure_identity.2⟩

/-! ## C6: material resolution in the with-material model draw -/

theorem drawModelLoop_ok (materials : List Material) (instStart instEnd cam light : Nat)
    (meshes : List Mesh)
    (h : ∀ mesh ∈ meshes, mesh.material < materials.length) :
    drawModelLoopWithMaterial materials instStart instEnd cam light meshes =
      some (meshes.foldr (fun mesh acc =>
        drawMeshInstancedWithMaterial mesh (materials.getD mesh.material ⟨"", 0⟩)
          instStart instEnd cam light ++ acc) []) := by
  induction meshes with
  | nil => rfl
  | cons mesh rest ih =>
    have hm : mesh.material < materials.length := h mesh (List.mem_cons_self _ _)
    have hv : materials[mesh.material]? = some (materials.getD mesh.material ⟨"", 0⟩) := by
      rw [List.getD_eq_getElem?_getD, List.getElem?_eq_getElem hm]
      rfl
    have ih2 := ih (fun m hm2 => h m (List.mem_cons_of_mem _ hm2))
    simp only [drawModelLoopWithMaterial, hv, ih2, Option.map_some', List.foldr_cons]

theorem drawModelLoop_oob (materials : List Material) (instStart instEnd cam light : Nat)
    (meshes : List Mesh) (mesh : Mesh) (hmem : mesh ∈ meshes)
    (h : materials.length ≤ mesh.material) :
    drawModelLoopWithMaterial materials instStart instEnd cam light meshes = none := by
  induction meshes with
  | nil => cases hmem
  | cons m rest ih =>
    cases List.mem_cons.mp hmem with
    | inl he =>
      subst he
      have hv : materials[mesh.material]? = none := by
        rw [List.getElem?_eq_none_iff]
        exact h
      simp [drawModelLoopWithMaterial, hv]
    | inr hr =>
      cases hv : materials[m.material]? with
      | none => simp [drawModelLoopWithMaterial, hv]
      | some mat => simp [drawModelLoopWithMaterial, hv, ih hr]

/-- C6: the with-material draw_model_instanced walks the model's meshes in
storage order resolving each material index; under the precondition that every
mesh's material index is in range the failure branch is unreachable and every
mesh is drawn with its resolved material, while any out-of-range index makes
the whole call fail (the Rust indexing panic, modelled as none). -/
theorem draw_model_material_resolution :
    (∀ (model : Model) (instStart instEnd cam light : Nat),
      (∀ mesh ∈ model.meshes, mesh.material < model.materials.length) →
      drawModelInstancedWithMaterial model instStart instEnd cam light =
        some (model.meshes.foldr (fun mesh acc =>
          drawMeshInstancedWithMaterial mesh
            (model.materials.getD mesh.material ⟨"", 0⟩) instStart instEnd cam light
            ++ acc) [])) ∧
    (∀ (model : Model) (instStart instEnd cam light : Nat) (mesh : Mesh),
      mesh ∈ model.meshes → model.materials.length ≤ mesh.material →
      drawModelInstancedWithMaterial model instStart instEnd cam light = none) :=
  ⟨fun model i j c l h => drawModelLoop_ok model.materials i j c l model.meshes h,
   fun model i j c l mesh hmem h =>
     drawModelLoop_oob model.materials i j c l model.meshes mesh hmem h⟩

/-- Witness for C6: a valid model draws each mesh with its material, a model
with an out-of-range material index fails. -/
theorem draw_model_material_resolution_witness :
    drawModelInstancedWithMaterial demoModel 0 1 3 4 =
      some (demoModel.meshes.foldr (fun mesh acc =>
        drawMeshInstancedWithMaterial mesh
          (demoModel.materials.getD mesh.material ⟨"", 0⟩) 0 1 3 4 ++ acc) []) ∧
    drawModelInstancedWithMaterial badModel 0 1 3 4 = none :=
  ⟨draw_model_material_resolution.1 demoModel 0 1 3 4 (by decide),
   draw_model_material_resolution.2 badModel 0 1 3 4 badMesh (by decide) (by decide)⟩

/-! ## C4: the instance buffer -/

/-- C4 counterexample: shrink an object's public instance list from two
entries to one and call update_instances — the write succeeds (one record
written at offset 0 of a two-record buffer) but the buffer still holds two
records while instance_count is one, so its contents are not the freshly
derived records of the current list. -/
theorem instance_buffer_stale_counterexample :
    c4Mutated.update_instances.map (fun o => o.instance_buffer.length) = some 2 ∧
    c4Mutated.instances.length = 1 ∧
    c4Mutated.update_instances.map
        (fun o => decide (o.instance_buffer.length
          = (c4Mutated.instances.map Instance.to_raw).length)) = some false := by
  refine ⟨?_, rfl, ?_⟩ <;> rfl

/-- C4 amended: at construction the buffer holds exactly the records derived
from the given instance list; update_instances rewrites the buffer from
offset 0 with the freshly derived records, so whenever the current instance
list still has as many entries as the buffer has record slots (as at
construction), the buffer afterwards equals the fresh records byte-for-byte.
(When the list shrank, stale records survive past the written prefix; when it
grew, the write is a validation error — see the counterexample.) -/
theorem instance_buffer_rewrite :
    (∀ (model : Model) (instances : List Instance) (pn : Option String)
        (dm : DrawMethod),
      (RenderableObject.new model instances pn dm).instance_buffer
          = instances.map Instance.to_raw ∧
      (RenderableObject.new model instances pn dm).instance_buffer.length
          = instances.length) ∧
    (∀ o : RenderableObject, o.instance_buffer.length = o.instances.length →
      o.update_instances
        = some { o with instance_buffer := o.instances.map Instance.to_raw }) := by
  constructor
  · intro model instances pn dm
    exact ⟨rfl, List.length_map _ _⟩
  · intro o h
    unfold RenderableObject.update_instances writeBuffer
    have hd : (o.instances.map Instance.to_raw).length = o.instance_buffer.length := by
      rw [List.length_map, h]
    rw [if_pos (le_of_eq hd)]
    rw [Option.map_some']
    rw [hd, List.drop_length, List.append_nil]

/-- Witness for C4 (amended) at concrete objects. -/
theorem instance_buffer_rewrite_witness :
    ((RenderableObject.new demoModel [demoInstance] none
          DrawMethod.withMaterial).instance_buffer
        = [demoInstance].map Instance.to_raw ∧
      (RenderableObject.new demoModel [demoInstance] none
          DrawMethod.withMaterial).instance_buffer.length
        = ([demoInstance] : List Instance).length) ∧
    c4Object.update_instances
      = some { c4Object with instance_buffer := c4Object.instances.map Instance.to_raw } :=
  ⟨instance_buffer_rewrite.1 demoModel [demoInstance] none DrawMethod.withMaterial,
   instance_buffer_rewrite.2 c4Object rfl⟩

/-! ## C8: resize -/

/-- C8: a resize with width or height zero is a no-op — the stored surface
configuration, configured flag, depth texture and projection aspect are all
left unchanged; with strictly positive dimensions resize stores the new
configuration, marks the surface configured, resizes the projection aspect,
reconfigures the surface with the new configuration and recreates the depth
buffer at the new dimensions. -/
theorem resize_spec :
    (∀ (s : State) (w h : Nat), w = 0 ∨ h = 0 → s.resize w h = s) ∧
    (∀ (s : State) (w h : Nat), 0 < w → 0 < h →
      (s.resize w h).config = ⟨w, h⟩ ∧
      (s.resize w h).is_surface_configured = true ∧
      (s.resize w h).projection_aspect = (w : ℚ) / (h : ℚ) ∧
      (s.resize w h).surface_configured_with = some ⟨w, h⟩ ∧
      (s.resize w h).depth_texture_size = (w, h)) := by
  constructor
  · intro s w h hwh
    have hc : ¬ (0 < w ∧ 0 < h) := by
      intro hc
      cases hwh with
      | inl h0 => subst h0; exact Nat.lt_irrefl 0 hc.1
      | inr h0 => subst h0; exact Nat.lt_irrefl 0 hc.2
    unfold State.resize
    rw [if_neg hc]
  · intro s w h hw hh
    unfold State.resize
    rw [if_pos ⟨hw, hh⟩]
    exact ⟨rfl, rfl, rfl, rfl, rfl⟩

/-- Witness for C8: a degenerate and a proper resize of the demo state. -/
theorem resize_spec_witness :
    demoState.resize 0 600 = demoState ∧
    ((demoState.resize 1024 768).config = ⟨1024, 768⟩ ∧
      (demoState.resize 1024 768).is_surface_configured = true ∧
      (demoState.resize 1024 768).projection_aspect = (1024 : ℚ) / (768 : ℚ) ∧
      (demoState.resize 1024 768).surface_configured_with = some ⟨1024, 768⟩ ∧
      (demoState.resize 1024 768).depth_texture_size = (1024, 768)) :=
  ⟨resize_spec.1 demoState 0 600 (Or.inl rfl),
   resize_spec.2 demoState 1024 768 (by decide) (by decide)⟩

/-! ## C9: render before the surface is configured -/

/-- C9: when the surface is not yet configured, render returns success while
acquiring no texture, recording no commands, submitting nothing and presenting
nothing — a deliberate no-op, not an error. -/
theorem render_unconfigured_skip (s : State)
    (h : s.is_surface_configured = false) :
    s.render = some (Except.ok ⟨false, false, false, []⟩) := by
  simp [State.render, h]

/-- Witness for C9 at the concrete unconfigured state. -/
theorem render_unconfigured_skip_witness :
    unconfiguredState.render = some (Except.ok ⟨false, false, false, []⟩) :=
  render_unconfigured_skip unconfiguredState rfl

/-! ## C2: the claimed per-object pipeline resolution in render -/

/-- C2 counterexample: the program registers no pipeline by name anywhere
(state.rs never constructs a PipelineManager), so the per-object loop the
claim describes — resolve each object's name, default "main", skip on a
miss — would draw nothing: with the manager in its only reachable state
(empty) every object is skipped.  Yet State::render on the demo scene records
two indexed draws (light model and object model).  render therefore does not
resolve pipeline names per object at all, and no object is ever skipped. -/
theorem render_ignores_pipeline_resolution :
    recordObjects PipelineManager.new 3 4 [demoObject] = some [] ∧
    demoState.render.map (fun r =>
      match r with
      | Except.ok o => o.commands.countP (fun c => RenderCmd.isDrawIndexed c)
      | Except.error _ => 0) = some 2 := by
  constructor
  · rfl
  · rfl

/-- C2 amended: State::render performs no pipeline-name resolution and skips
no objects — whenever the surface is configured and a texture is acquired, it
unconditionally records the light-model draw under the fixed light pipeline,
then binds the fixed main render pipeline and the stored instance buffer at
vertex slot 1 and draws the single stored model over the full instance
range. -/
theorem render_fixed_trace (s : State) (tex : Nat) (objCmds : List RenderCmd)
    (hc : s.is_surface_configured = true)
    (ht : s.surface_current_texture = Except.ok tex)
    (hm : drawModelInstancedTextured s.obj_model 0 s.instances.length
        s.camera_bind_group s.light_bind_group = some objCmds) :
    s.render = some (Except.ok ⟨true, true, true,
      RenderCmd.setPipeline s.light_render_pipeline ::
        drawLightModel s.obj_model s.camera_bind_group s.light_bind_group ++
      RenderCmd.setPipeline s.render_pipeline ::
      RenderCmd.setVertexBuffer 1 s.instance_buffer ::
      objCmds⟩) := by
  simp [State.render, hc, ht, hm]

/-- Witness for C2 (amended) at the demo state. -/
theorem render_fixed_trace_witness :
    demoState.render = some (Except.ok ⟨true, true, true,
      RenderCmd.setPipeline demoState.light_render_pipeline ::
        drawLightModel demoState.obj_model demoState.camera_bind_group
          demoState.light_bind_group ++
      RenderCmd.setPipeline demoState.render_pipeline ::
      RenderCmd.setVertexBuffer 1 demoState.instance_buffer ::
      demoObjCmds⟩) :=
  render_fixed_trace demoState 7 demoObjCmds rfl rfl (by rfl)

/-! ## C10: manager invariant and lookup soundness -/

theorem applyAdd_get_mono {pm : PipelineManager} {n : String} {p : RenderPipeline}
    (r : AddRequest) (h : pm.get_by_name n = some p) :
    (applyAdd pm r).get_by_name n = some p := by
  cases hn : mapGet pm.pipeline_map n with
  | none => simp [PipelineManager.get_by_name, hn] at h
  | some i =>
    rw [PipelineManager.get_by_name, hn] at h
    simp only [Option.some_bind] at h
    unfold applyAdd PipelineManager.add_pipeline
    cases hr : mapGet pm.pipeline_map r.name with
    | some j =>
      simp only [hr]
      rw [PipelineManager.get_by_name, hn]
      simpa using h
    | none =>
      simp only [hr]
      rw [PipelineManager.get_by_name]
      simp only
      rw [mapGet_append_left _ hn]
      rw [PipelineManager.get] at h
      simpa [PipelineManager.get] using getElem_append_some _ h

theorem runAdds_get_mono {n : String} {p : RenderPipeline} (rs : List AddRequest) :
    ∀ pm : PipelineManager, pm.get_by_name n = some p →
      (runAdds pm rs).get_by_name n = some p := by
  induction rs with
  | nil => intro pm h; exact h
  | cons r rest ih => intro pm h; exact ih _ (applyAdd_get_mono r h)

theorem applyAdd_wf {pm : PipelineManager} (r : AddRequest) (h : pmWF pm) :
    pmWF (applyAdd pm r) := by
  unfold applyAdd PipelineManager.add_pipeline
  cases hr : mapGet pm.pipeline_map r.name with
  | some i => simpa using h
  | none =>
    simp only
    intro e he
    simp only [List.length_append, List.length_cons, List.length_nil]
    rcases List.mem_append.mp he with h1 | h2
    · exact Nat.lt_succ_of_lt (h e h1)
    · have : e = (r.name, pm.pipelines.length) := by simpa using h2
      rw [this]
      exact Nat.lt_succ_self _

theorem runAdds_wf (rs : List AddRequest) :
    ∀ pm : PipelineManager, pmWF pm → pmWF (runAdds pm rs) := by
  induction rs with
  | nil => intro pm h; exact h
  | cons r rest ih => intro pm h; exact ih _ (applyAdd_wf r h)

theorem applyAdd_self_isSome {pm : PipelineManager} (r : AddRequest) (h : pmWF pm) :
    ((applyAdd pm r).get_by_name r.name).isSome = true := by
  unfold applyAdd PipelineManager.add_pipeline
  cases hr : mapGet pm.pipeline_map r.name with
  | some i =>
    have hi : i < pm.pipelines.length := h (r.name, i) (mapGet_mem hr)
    simp [PipelineManager.get_by_name, PipelineManager.get, hr,
      List.getElem?_eq_getElem hi]
  | none =>
    have h2 := mapGet_append_self pm.pipelines.length hr
    simp [PipelineManager.get_by_name, PipelineManager.get, h2,
      getElem_append_length]

theorem runAdds_isSome_mono {n : String} (rs : List AddRequest)
    (pm : PipelineManager) (h : (pm.get_by_name n).isSome = true) :
    ((runAdds pm rs).get_by_name n).isSome = true := by
  cases hp : pm.get_by_name n with
  | none => rw [hp] at h; cases h
  | some p => rw [runAdds_get_mono rs pm hp]; rfl

theorem runAdds_registered {r : AddRequest} (rs : List AddRequest) :
    ∀ pm : PipelineManager, pmWF pm → r ∈ rs →
      ((runAdds pm rs).get_by_name r.name).isSome = true := by
  induction rs with
  | nil => intro pm _ hmem; cases hmem
  | cons a rest ih =>
    intro pm hwf hmem
    cases List.mem_cons.mp hmem with
    | inl he =>
      subst he
      exact runAdds_isSome_mono rest _ (applyAdd_self_isSome r hwf)
    | inr hmem2 => exact ih _ (applyAdd_wf a hwf) hmem2

theorem applyAdd_mapGet_none {pm : PipelineManager} {n : String} (r : AddRequest)
    (h : mapGet pm.pipeline_map n = none) (hne : r.name ≠ n) :
    mapGet (applyAdd pm r).pipeline_map n = none := by
  unfold applyAdd PipelineManager.add_pipeline
  cases hr : mapGet pm.pipeline_map r.name with
  | some i => simpa using h
  | none => simpa using mapGet_append_none pm.pipelines.length h hne

theorem runAdds_mapGet_none {n : String} (rs : List AddRequest) :
    ∀ pm : PipelineManager, mapGet pm.pipeline_map n = none →
      (∀ r ∈ rs, r.name ≠ n) → mapGet (runAdds pm rs).pipeline_map n = none := by
  induction rs with
  | nil => intro pm h _; exact h
  | cons a rest ih =>
    intro pm h hall
    exact ih _ (applyAdd_mapGet_none a h (hall a (List.mem_cons_self _ _)))
      (fun r hr => hall r (List.mem_cons_of_mem _ hr))

/-- C10: after any sequence of add_pipeline calls from the fresh manager, every
index in the name map is a valid index into the pipeline vector; get_by_name
finds a pipeline for every name that was ever registered — and, once a name
resolves to a pipeline, further registrations never change what it resolves
to, so it stays the pipeline of its first registration — and get_by_name is
none for every name never registered. -/
theorem pipeline_lookup_sound (rs : List AddRequest) :
    (∀ e ∈ (runAdds PipelineManager.new rs).pipeline_map,
        e.2 < (runAdds PipelineManager.new rs).pipelines.length) ∧
    (∀ n : String, (∃ r ∈ rs, r.name = n) →
        ((runAdds PipelineManager.new rs).get_by_name n).isSome = true) ∧
    (∀ n : String, (∀ r ∈ rs, r.name ≠ n) →
        (runAdds PipelineManager.new rs).get_by_name n = none) ∧
    (∀ (pm : PipelineManager) (n : String) (p : RenderPipeline),
        pm.get_by_name n = some p → (runAdds pm rs).get_by_name n = some p) := by
  have hnewWF : pmWF PipelineManager.new := by
    intro e he
    cases he
  refine ⟨runAdds_wf rs PipelineManager.new hnewWF, ?_, ?_, ?_⟩
  · rintro n ⟨r, hr, hname⟩
    subst hname
    exact runAdds_registered rs PipelineManager.new hnewWF hr
  · intro n hall
    have hnone := runAdds_mapGet_none rs PipelineManager.new rfl hall
    rw [PipelineManager.get_by_name, hnone]
    rfl
  · intro pm n p h
    exact runAdds_get_mono rs pm h

/-- Witness for C10 on the two-request demo registration sequence. -/
theorem pipeline_lookup_sound_witness :
    0 < (runAdds PipelineManager.new demoRequests).pipelines.length ∧
    ((runAdds PipelineManager.new demoRequests).get_by_name "main").isSome = true ∧
    (runAdds PipelineManager.new demoRequests).get_by_name "ghost" = none ∧
    (runAdds (applyAdd PipelineManager.new mainReq) demoRequests).get_by_name "main"
        = some (create_render_pipeline "shader-main" [0, 1, 2] [10, 11] 1) :=
  ⟨(pipeline_lookup_sound demoRequests).1 ("main", 0) (by decide),
   (pipeline_lookup_sound demoRequests).2.1 "main" ⟨mainReq, by decide, rfl⟩,
   (pipeline_lookup_sound demoRequests).2.2.1 "ghost" (by decide),
   (pipeline_lookup_sound demoRequests).2.2.2 (applyAdd PipelineManager.new mainReq)
     "main" (create_render_pipeline "shader-main" [0, 1, 2] [10, 11] 1) (by decide)⟩

end Oxide
